import Mathlib

/-!
Verification of the STORN sequence-model repository (greenarm).

This file gives a shallow embedding of the pure / observable parts of
`greenarm/models/STORN.py`, `greenarm/models/sampling/sampling.py` and
`greenarm/util.py`, and proves or refutes the frozen behavioural claims
about them.

Modelling conventions:
* numpy `float32` arrays are modelled as nested lists of rationals
  (`Array3 = List (List (List ℚ))`), with exact rational arithmetic standing
  in for floating point;
* random draws performed inside the keras backend (`K.random_normal`,
  `K.random_uniform`) are passed in explicitly as `noise` parameters;
* a Python function that can raise is modelled in the `Except ErrMsg` monad;
  `ErrMsg` records the kind and payload of the raised exception, so that
  statements about "which error, with which message" stay decidable;
* the keras graph objects (`train_model`, `predict_model`) are opaque
  functions from the list of input arrays to the output array; their only
  contract used here is the keras rule "the predicted batch has as many rows as the
  input batch".
-/

namespace STORN

/--
Model of a raised Python exception, keeping exactly the information carried
by the message of the real exception:
* `assertionNoMsg`: a bare `assert cond` failing — `AssertionError` with no
  message text at all;
* `dimMismatch expected actual`: the `AssertionError` of `evaluate_offline`,
  whose message interpolates both dimensions
  ("Data dimensions do not match! Model is expecting `expected` features.
  Input has `actual`");
* `typeErrorMissingArg func arg`: the `TypeError` raised when `func` is
  called without its required positional argument `arg`;
* `valueError s`: `ValueError(s)`.
-/
inductive ErrMsg where
  | assertionNoMsg
  | dimMismatch (expected actual : ℕ)
  | typeErrorMissingArg (func arg : String)
  | valueError (s : String)
deriving DecidableEq, Repr

/-- Decidable equality of modelled call results (`Except` is not covered by
`deriving` in core). -/
instance decEqExcept {ε α : Type} [DecidableEq ε] [DecidableEq α] :
    DecidableEq (Except ε α) := fun a b =>
  match a, b with
  | Except.error e1, Except.error e2 =>
      if h : e1 = e2 then Decidable.isTrue (congrArg Except.error h)
      else Decidable.isFalse (fun hc => h (Except.error.inj hc))
  | Except.ok v1, Except.ok v2 =>
      if h : v1 = v2 then Decidable.isTrue (congrArg Except.ok h)
      else Decidable.isFalse (fun hc => h (Except.ok.inj hc))
  | Except.error _, Except.ok _ => Decidable.isFalse (fun hc => Except.noConfusion hc)
  | Except.ok _, Except.error _ => Decidable.isFalse (fun hc => Except.noConfusion hc)

/-- Three-way elementwise combination, used for `mu + sig * epsilon`. -/
def zip3With (f : α → β → γ → δ) : List α → List β → List γ → List δ
  | a :: as, b :: bs, c :: cs => f a b c :: zip3With f as bs cs
  | _, _, _ => []

/--
`sample_gauss(mu, sig, batch_size, dim_size)` from
`greenarm/models/sampling/sampling.py`: `sample = mu + sig * epsilon` with
`epsilon ~ N(0,1)` of shape `(batch_size, dim_size)`.  The random draw
`epsilon` is passed explicitly; `mu`, `sig`, `epsilon` are `(batch, dim)`
matrices.
-/
def sample_gauss (mu sig epsilon : List (List ℚ)) : List (List ℚ) :=
  zip3With (fun mrow srow erow => zip3With (fun m s e => m + s * e) mrow srow erow)
    mu sig epsilon

/--
`sample_bernoulli(p, batch_size, dim_size)` from `sampling.py`:
`K.cast(K.less(uni, p), "float32")` with `uni ~ Uniform(0,1)` of shape
`(batch_size, dim_size)`; the draw `uni` is passed explicitly.
-/
def sample_bernoulli (p uni : List (List ℚ)) : List (List ℚ) :=
  List.zipWith (fun prow urow =>
      List.zipWith (fun pv u => if u < pv then (1 : ℚ) else 0) prow urow)
    p uni

/--
`STORNRecognitionModel.do_sample(statistics, batch_size, dim_size, mode)`
(STORN.py lines 376-389).  `statistics` is a `(batch, 2*dim_size)` matrix;
`mu = statistics[:, :dim_size]`, `sigma = statistics[:, dim_size:]`.
`batch_size` defaults to the symbolic batch dimension when `None`; it only
sizes the internal random draw, which is the explicit `noise` parameter here.

The Python body has `if mode == "gauss": ... elif mode == "bernoulli": ...`
with NO `else` branch: for any other mode the function raises nothing and
falls through, returning Python `None` — modelled as `Except.ok none`.
-/
def do_sample (statistics : List (List ℚ)) (batch_size : Option ℕ) (dim_size : ℕ)
    (mode : String) (noise : List (List ℚ)) : Except ErrMsg (Option (List (List ℚ))) :=
  let mu := statistics.map (List.take dim_size)
  let sigma := statistics.map (List.drop dim_size)
  let _bs := batch_size.getD mu.length
  if mode = "gauss" then
    Except.ok (some (sample_gauss mu sigma noise))
  else if mode = "bernoulli" then
    Except.ok (some (sample_bernoulli mu noise))
  else
    Except.ok none

/-! ## numpy array model -/

/-- A rank-3 `float32` numpy array `(n_sequences, seq_len, data_dim)`. -/
abbrev Array3 := List (List (List ℚ))

/-- `x.shape[0]` of a rank-3 array. -/
def np_shape0 (x : Array3) : ℕ := x.length

/-- `x.shape[1]` of a (uniformly shaped) rank-3 array. -/
def np_shape1 (x : Array3) : ℕ := (x.headD []).length

/-- `x.shape[2]` of a (uniformly shaped) rank-3 array. -/
def np_shape2 (x : Array3) : ℕ := ((x.headD []).headD []).length

/-- `np.zeros((n, T, L), dtype="float32")`. -/
def np_zeros (n T L : ℕ) : Array3 :=
  List.replicate n (List.replicate T (List.replicate L (0 : ℚ)))

/-- `np.ones((n, T, L), dtype="float32")`. -/
def np_ones (n T L : ℕ) : Array3 :=
  List.replicate n (List.replicate T (List.replicate L (1 : ℚ)))

/-- `np.full((n, T, L), v, dtype="float32")`. -/
def np_full (n T L : ℕ) (v : ℚ) : Array3 :=
  List.replicate n (List.replicate T (List.replicate L v))

/-- `np.concatenate([a, b], axis=-1)` for two equally shaped rank-3 arrays. -/
def np_concat_last (a b : Array3) : Array3 :=
  List.zipWith (fun x y => List.zipWith (fun r s => r ++ s) x y) a b

/-- Scalar multiplication `c * a` of a rank-3 array (used to state
the `0.5 * ones(n,T,L)` formula of the spec). -/
def np_smul (c : ℚ) (a : Array3) : Array3 :=
  a.map (fun x => x.map (fun r => r.map (fun v => c * v)))

/--
`STORNPriorModel.standard_input(number_of_series, seq_len, latent_dim, mode)`
(STORN.py lines 448-471), translated branch by branch:
`mode == "gauss"`: `sigma = ones`, `my = zeros`;
`mode == "bernoulli"`: `sigma = zeros`, `my = full(..., 0.5)`;
otherwise `raise ValueError("Unknown mode!")`;
returns `np.concatenate([my, sigma], axis=-1)`.
-/
def standard_input (number_of_series seq_len latent_dim : ℕ) (mode : String) :
    Except ErrMsg Array3 :=
  if mode = "gauss" then
    let sigma := np_ones number_of_series seq_len latent_dim
    let my := np_zeros number_of_series seq_len latent_dim
    Except.ok (np_concat_last my sigma)
  else if mode = "bernoulli" then
    let sigma := np_zeros number_of_series seq_len latent_dim
    let my := np_full number_of_series seq_len latent_dim (1/2)
    Except.ok (np_concat_last my sigma)
  else
    Except.error (ErrMsg.valueError "Unknown mode!")

/-! ## util.py -/

/--
`add_samples_until_divisible(x, batch_size)` (util.py lines 20-25):
`num_missing = batch_size * (num_samples // batch_size + 1) - num_samples`,
then `np.vstack([x, np.zeros(shape=(num_missing, *x.shape[1:]))])`.
The all-zero sample of shape `x.shape[1:]` is the explicit `zero_sample`
argument (instantiated with `zero_sample_of` below at rank 3).
-/
def add_samples_until_divisible (x : List α) (zero_sample : α) (batch_size : ℕ) :
    List α :=
  let num_samples := x.length
  let num_missing := batch_size * (num_samples / batch_size + 1) - num_samples
  x ++ List.replicate num_missing zero_sample

/-- `np.zeros(shape=x.shape[1:])` for a rank-3 `x`: one all-zero sample. -/
def zero_sample_of (x : Array3) : List (List ℚ) :=
  List.replicate (np_shape1 x) (List.replicate (np_shape2 x) (0 : ℚ))

/-- Modelled from the spec: "the smallest multiple of `b` that is `≥ n`"
(the padded length the spec claims for `add_samples_until_divisible`).
This definition follows the words of the spec and is compared against the
source-translated `add_samples_until_divisible`. -/
def least_multiple_ge (b n : ℕ) : ℕ := b * ((n + b - 1) / b)

/-! ## STORNModel operations

The keras graph construction performed by `STORNModel._build` (layer
stacking, compilation, weight loading) belongs to the external numerical
engine; the orchestrator state relevant to the claims is the configuration
plus the (optional) built predict graph, modelled as an opaque function
from the list of padded input arrays to the output array. -/

/-- The configuration fields of a `STORNModel` instance read by
`fit` / `predict_one_step` / `evaluate_offline`, plus the `predict_model`
slot (`None` until a predict graph has been built).  `rec_mode` models the
Python attribute `rec` (a Lean keyword). -/
structure OpsModel where
  data_dim : ℕ
  latent_dim : ℕ
  rec_mode : String
  with_trending_prior : Bool
  predict_model : Option (List Array3 → Array3)

/--
The input-list preparation shared verbatim by `fit` (lines 202-204),
`predict_one_step` (lines 239-241) and `evaluate_offline` (lines 260-262):
`list_in = inputs[:]`, and when not using a trending prior,
`list_in.append(STORNPriorModel.standard_input(n, seq_len, latent_dim, rec))`
— which propagates the `ValueError` of `standard_input` on an unknown `rec`.
-/
def with_prior_input (m : OpsModel) (n_sequences seq_len : ℕ) (inputs : List Array3) :
    Except ErrMsg (List Array3) :=
  if m.with_trending_prior then Except.ok inputs
  else
    match standard_input n_sequences seq_len m.latent_dim m.rec_mode with
    | Except.error e => Except.error e
    | Except.ok s => Except.ok (inputs ++ [s])

/-- Python `int(q)`: truncation toward zero (`Rat.floor` keeps the
definition executable by kernel reduction). -/
def pyInt (q : ℚ) : ℤ := if 0 ≤ q then q.floor else -((-q).floor)

/-- Python slice `l[:i]` with a possibly negative index. -/
def pyTake (i : ℤ) (l : List α) : List α :=
  if 0 ≤ i then l.take i.toNat else l.take (l.length - i.natAbs)

/-- Python slice `l[i:]` with a possibly negative index. -/
def pyDrop (i : ℤ) (l : List α) : List α :=
  if 0 ≤ i then l.drop i.toNat else l.drop (l.length - i.natAbs)

/-- The train/validation partition produced inside `STORNModel.fit`
(lines 208-211) — the observable this verification checks `fit` for. -/
structure FitSplit where
  train_input : List Array3
  valid_input : List Array3
  train_target : Array3
  valid_target : Array3
deriving DecidableEq, Repr

/--
`STORNModel.fit(inputs, target, max_epochs, validation_split)`
(STORN.py lines 195-231), up to the external collaborators:
* `assert self.data_dim == data_dim` — a bare assert (no message), checked
  first, with `data_dim = target.shape[2]`;
* the constant-prior input is appended when not using a trending prior;
* `split_idx = int((1. - validation_split) * n_sequences)` and every array
  of `list_in`, as well as `target`, is split into `X[:split_idx]` /
  `X[split_idx:]` — no shuffling;
* parameter persistence, the training loop with its callbacks, interrupt
  handling and the best-weights reload are driven by the external engine
  and do not change the partition, which is what `fit` returns here.
-/
def fit (m : OpsModel) (inputs : List Array3) (target : Array3)
    (validation_split : ℚ) : Except ErrMsg FitSplit :=
  let n_sequences := np_shape0 target
  let seq_len := np_shape1 target
  let data_dim := np_shape2 target
  if m.data_dim = data_dim then
    match with_prior_input m n_sequences seq_len inputs with
    | Except.error e => Except.error e
    | Except.ok list_in =>
      let split_idx := pyInt ((1 - validation_split) * (n_sequences : ℚ))
      Except.ok
        { train_input := list_in.map (fun X => pyTake split_idx X)
          valid_input := list_in.map (fun X => pyDrop split_idx X)
          train_target := pyTake split_idx target
          valid_target := pyDrop split_idx target }
  else Except.error ErrMsg.assertionNoMsg

/--
`STORNModel.predict_one_step(inputs)` (STORN.py lines 233-251):
* `assert self.data_dim == data_dim` — bare assert, no message, with
  `data_dim = inputs[0].shape[2]`;
* appends the constant-prior input when not using a trending prior;
* pads every input with `add_samples_until_divisible(input_x, 32)`;
* when `self.predict_model is None` the code runs
  `self.predict_model = self._build(Phases.predict, batch_size=32)` and then
  `self.load_predict_weights()` — but `load_predict_weights(self,
  weights_file)` requires the `weights_file` argument, so this call raises
  `TypeError` before any prediction;
* otherwise returns `self.predict_model.predict(pred_inputs)[:n_sequences, :, :]`.
-/
def predict_one_step (m : OpsModel) (inputs : List Array3) : Except ErrMsg Array3 :=
  let x0 := inputs.headD []
  let n_sequences := np_shape0 x0
  let seq_len := np_shape1 x0
  let data_dim := np_shape2 x0
  if m.data_dim = data_dim then
    match with_prior_input m n_sequences seq_len inputs with
    | Except.error e => Except.error e
    | Except.ok list_in =>
      let pred_inputs := list_in.map (fun input_x =>
        add_samples_until_divisible input_x (zero_sample_of input_x) 32)
      match m.predict_model with
      | none =>
          Except.error (ErrMsg.typeErrorMissingArg "load_predict_weights" "weights_file")
      | some predict => Except.ok ((predict pred_inputs).take n_sequences)
  else Except.error ErrMsg.assertionNoMsg

/--
The target padding inside `STORNModel.evaluate_offline` (lines 264-267):
`np.concatenate((target, np.zeros((n_sequences, seq_len,
4 * self.latent_dim + data_dim))), axis=-1)`.
-/
def evaluate_offline_padded_target (target : Array3) (latent_dim data_dim : ℕ) :
    Array3 :=
  np_concat_last target
    (np_zeros (np_shape0 target) (np_shape1 target) (4 * latent_dim + data_dim))

/-- Width of the recognition posterior statistics tensor: the concatenation
of the `Dense(latent_dim)` mu head and the `Dense(latent_dim)` sigma head
(STORN.py lines 352-354). -/
def recogn_stats_width (latent_dim : ℕ) : ℕ := latent_dim + latent_dim

/-- Width of the prior statistics tensor: the standard prior is an external
`Input` of width `2 * latent_dim` (lines 416-423); the trending prior
concatenates two `Dense(latent_dim)` heads (lines 425-434). -/
def prior_stats_width (latent_dim : ℕ) (trending : Bool) : ℕ :=
  if trending then latent_dim + latent_dim else 2 * latent_dim

/-- Width of the combined output tensor
`Concatenate(axis=-1)([gen_mu, gen_sigma, z_post_stats, z_prior_stats])`
built by `STORNModel._build` (lines 169-173): the `Dense(data_dim)` output
mean and scale heads followed by the posterior and prior statistics. -/
def combined_output_width (data_dim latent_dim : ℕ) (trending : Bool) : ℕ :=
  data_dim + data_dim + recogn_stats_width latent_dim +
    prior_stats_width latent_dim trending

/--
`STORNModel.evaluate_offline(inputs, target)` (STORN.py lines 253-277):
* `assert data_dim == self.data_dim, "Data dimensions do not match! Model is
  expecting ... features. Input has ..."` — checked first, the message
  interpolating the expected (`self.data_dim`) and actual (`data_dim`)
  dimensions;
* appends the constant-prior input when not using a trending prior;
* pads the target with zero columns (`evaluate_offline_padded_target`);
* `predictions = self.train_model.predict(list_in)` — the train graph,
  the opaque `train_predict` argument here;
* the Variational Loss (external collaborator
  `keras_variational_func(data_dim, latent_dim, rec)`) applied to
  `(padded_target, predictions)` — the opaque `loss_fn` argument;
* returns `(predictions[:, :, :data_dim], loss)`.
-/
def evaluate_offline (m : OpsModel) (train_predict : List Array3 → Array3)
    (loss_fn : Array3 → Array3 → ℚ) (inputs : List Array3) (target : Array3) :
    Except ErrMsg (Array3 × ℚ) :=
  let n_sequences := np_shape0 target
  let seq_len := np_shape1 target
  let data_dim := np_shape2 target
  if data_dim = m.data_dim then
    match with_prior_input m n_sequences seq_len inputs with
    | Except.error e => Except.error e
    | Except.ok list_in =>
      let padded_target := evaluate_offline_padded_target target m.latent_dim data_dim
      let predictions := train_predict list_in
      let loss := loss_fn padded_target predictions
      Except.ok (predictions.map (fun seq => seq.map (fun row => row.take data_dim)), loss)
  else Except.error (ErrMsg.dimMismatch m.data_dim data_dim)

/-! ## get_params / set_params

`STORNModel.set_params` sets attributes reflectively (`setattr` in a loop
over the mapping), so the instance is modelled by its `__dict__`: an
association list from attribute name to value, most recent assignment
first.  Values are modelled by a small dynamic-value type covering the
kinds of values the configuration holds. -/

/-- A dynamic Python value, as stored in the attributes of the model and in the
parameters mapping.  `vdict c cfg` is the serialized-embedding dictionary
`\x7bclass_name: c, config: cfg\x7d`; `vobj c cfg` is a live embedding
(keras layer) object with `__class__.__name__ = c` and `get_config() = cfg`. -/
inductive Value where
  | vnat (n : ℕ)
  | vrat (q : ℚ)
  | vstr (s : String)
  | vbool (b : Bool)
  | vnone
  | vdict (class_name : String) (config : Value)
  | vobj (class_name : String) (config : Value)
deriving DecidableEq, Repr

/-- Python truthiness of a `Value` (`not param`, `if self.embedding`, ...). -/
def falsy : Value → Bool
  | Value.vnat n => n = 0
  | Value.vrat q => q = 0
  | Value.vstr s => s = ""
  | Value.vbool b => !b
  | Value.vnone => true
  | Value.vdict _ _ => false
  | Value.vobj _ _ => false

/-- The `__dict__` of a `STORNModel` instance. -/
abbrev Attrs := List (String × Value)

/-- Python attribute lookup `getattr(m, name)` on the instance dictionary. -/
def get_attr : Attrs → String → Option Value
  | [], _ => none
  | (k, v) :: rest, name => if name = k then some v else get_attr rest name

/-- Python `setattr(m, name, value)`: the new binding shadows any older one. -/
def set_attr (m : Attrs) (name : String) (value : Value) : Attrs :=
  (name, value) :: m

/-- `keras.layers.deserialize` on a serialized-layer dictionary: rebuilds the
layer object from its class name and config.  (Only ever applied to `vdict`
values in this development; other inputs are outside the image of the serializer
and left unchanged.) -/
def deserialize : Value → Value
  | Value.vdict class_name config => Value.vobj class_name config
  | v => v

/-- The `embedding` entry built by `get_params` (STORN.py lines 93-94):
`\x7bclass_name: self.embedding.__class__.__name__, config:
self.embedding.get_config()\x7d if self.embedding else None`.  A truthy
non-object value has no `get_config` and would raise — modelled as `none`. -/
def embedding_entry : Value → Option Value
  | Value.vnone => some Value.vnone
  | Value.vobj c cfg => some (Value.vdict c cfg)
  | v => if falsy v then some Value.vnone else none

/--
`STORNModel.get_params()` (STORN.py lines 81-95): the serialized mapping,
with exactly these keys — note that the instance attributes `rec`,
`learning_rate` and `monitor` are NOT among them.
-/
def get_params (m : Attrs) : Option (List (String × Value)) := do
  let data_dim ← get_attr m "data_dim"
  let latent_dim ← get_attr m "latent_dim"
  let n_hidden_dense ← get_attr m "n_hidden_dense"
  let n_hidden_recurrent ← get_attr m "n_hidden_recurrent"
  let n_deep ← get_attr m "n_deep"
  let dropout ← get_attr m "dropout"
  let activation ← get_attr m "activation"
  let with_trending_prior ← get_attr m "with_trending_prior"
  let output_folder ← get_attr m "output_folder"
  let pfx ← get_attr m "prefix"
  let embedding ← get_attr m "embedding"
  let embedding_serialized ← embedding_entry embedding
  pure [("data_dim", data_dim), ("latent_dim", latent_dim),
        ("n_hidden_dense", n_hidden_dense),
        ("n_hidden_recurrent", n_hidden_recurrent), ("n_deep", n_deep),
        ("dropout", dropout), ("activation", activation),
        ("with_trending_prior", with_trending_prior),
        ("output_folder", output_folder), ("prefix", pfx),
        ("embedding", embedding_serialized)]

/-- One iteration of the `set_params` loop body: `setattr(self, param_name,
param)`, with the `"embedding"` key skipped when false-y and deserialized
when truthy. -/
def set_params_step (acc : Attrs) (kv : String × Value) : Attrs :=
  if kv.1 = "embedding" then
    if falsy kv.2 then acc else set_attr acc kv.1 (deserialize kv.2)
  else set_attr acc kv.1 kv.2

/--
`STORNModel.set_params(params)` (STORN.py lines 97-106): for every
`(param_name, param)` pair, `setattr(self, param_name, param)` — except that
for the key `"embedding"` a false-y value is skipped (`continue`) and a
truthy one is first passed through `keras.layers.deserialize`.
-/
def set_params (m : Attrs) (params : List (String × Value)) : Attrs :=
  params.foldl set_params_step m

/-- `output_folder or ""` / `prefix or ""` in `__init__`. -/
def py_or_empty (v : Value) : Value := if falsy v then Value.vstr "" else v

/--
`STORNModel.__init__` (STORN.py lines 36-65): the instance dictionary after
construction, attributes in assignment order.  Parameters appear in the
Python signature order; `rec_arg` models the parameter `rec` and `pfx` the
parameter `prefix` (both Lean keywords).
-/
def STORNModel_init (latent_dim data_dim n_hidden_dense n_hidden_recurrent
    rec_arg n_deep dropout activation with_trending_prior monitor
    output_folder pfx embedding learning_rate : Value) : Attrs :=
  [("data_dim", data_dim), ("latent_dim", latent_dim),
   ("n_hidden_dense", n_hidden_dense),
   ("n_hidden_recurrent", n_hidden_recurrent),
   ("n_deep", n_deep), ("dropout", dropout), ("activation", activation),
   ("embedding", embedding), ("rec", rec_arg),
   ("learning_rate", learning_rate),
   ("with_trending_prior", with_trending_prior),
   ("z_prior_model", Value.vnone), ("z_recognition_model", Value.vnone),
   ("train_model", Value.vnone), ("predict_model", Value.vnone),
   ("monitor", monitor),
   ("output_folder", py_or_empty output_folder),
   ("prefix", py_or_empty pfx)]

/-- A fresh `STORNModel()` instance with all `__init__` defaults:
`latent_dim=7, data_dim=7, n_hidden_dense=50, n_hidden_recurrent=128,
rec="gauss", n_deep=6, dropout=0, activation="tanh",
with_trending_prior=False, monitor=False, output_folder=None, prefix=None,
embedding=None, learning_rate=0.001`. -/
def fresh_default : Attrs :=
  STORNModel_init (Value.vnat 7) (Value.vnat 7) (Value.vnat 50)
    (Value.vnat 128) (Value.vstr "gauss") (Value.vnat 6) (Value.vrat 0)
    (Value.vstr "tanh") (Value.vbool false) (Value.vbool false)
    Value.vnone Value.vnone Value.vnone (Value.vrat (1/1000))

/-! ## Helper lemmas -/

/-- Correctness of the spec-modelled `least_multiple_ge`: it is a multiple
of `b`, at least `n`, and below every other such multiple. -/
theorem least_multiple_ge_spec (b n : ℕ) (hb : 1 ≤ b) :
    b ∣ least_multiple_ge b n ∧ n ≤ least_multiple_ge b n ∧
      ∀ k, b ∣ k → n ≤ k → least_multiple_ge b n ≤ k := by
  refine ⟨Dvd.intro _ rfl, ?_, ?_⟩
  · have hdm := Nat.div_add_mod (n + b - 1) b
    have hml : (n + b - 1) % b < b := Nat.mod_lt _ hb
    unfold least_multiple_ge
    omega
  · intro k hk hnk
    obtain ⟨t, rfl⟩ := hk
    unfold least_multiple_ge
    have ht : (n + b - 1) / b ≤ t := by
      have hex : (t + 1) * b = b * t + b := by ring
      have hlt : n + b - 1 < (t + 1) * b := by omega
      have := (Nat.div_lt_iff_lt_mul hb).mpr hlt
      omega
    exact Nat.mul_le_mul_left b ht

/-- The padded length computed by `add_samples_until_divisible`. -/
theorem add_samples_until_divisible_length (x : List α) (z : α) (b : ℕ)
    (hb : 1 ≤ b) :
    (add_samples_until_divisible x z b).length = b * (x.length / b + 1) := by
  have key : x.length < b * (x.length / b + 1) := by
    calc x.length = b * (x.length / b) + x.length % b :=
          (Nat.div_add_mod _ _).symm
      _ < b * (x.length / b) + b := by
          have : x.length % b < b := Nat.mod_lt _ hb
          omega
      _ = b * (x.length / b + 1) := by ring
  simp only [add_samples_until_divisible, List.length_append,
    List.length_replicate]
  omega

/-! ## Claims -/

/--
Claim C2 counterexample: calling `STORNRecognitionModel.do_sample` with the
unknown distribution-family string `"poisson"` raises no error at all — the
Python `if mode == "gauss" ... elif mode == "bernoulli"` has no `else`
branch, so the call silently returns `None` (`Except.ok none`), contrary to
the claim that it fails fast with an explicit error naming the invalid mode.
-/
theorem do_sample_unknown_mode_silent_none :
    do_sample ([[0, 1]] : List (List ℚ)) none 1 "poisson" [[0]] =
      Except.ok none := by
  rfl

/--
Claim C2 (amended): for every distribution-family string other than
`"gauss"` and `"bernoulli"`, `STORNRecognitionModel.do_sample` raises no
error and produces no sample: it silently returns `None`.  (The fail-fast
`ValueError` exists only in `STORNPriorModel.standard_input`.)
-/
theorem do_sample_unknown_mode (statistics : List (List ℚ))
    (batch_size : Option ℕ) (dim_size : ℕ) (mode : String)
    (noise : List (List ℚ)) (h1 : mode ≠ "gauss") (h2 : mode ≠ "bernoulli") :
    do_sample statistics batch_size dim_size mode noise = Except.ok none := by
  simp only [do_sample, if_neg h1, if_neg h2]

/-- Claim C2 witness: the amended statement evaluated at a concrete call. -/
theorem do_sample_unknown_mode_witness :
    do_sample ([[1, 2, 3, 4]] : List (List ℚ)) (some 1) 2 "flat" [[0, 0]] =
      Except.ok none :=
  do_sample_unknown_mode _ _ _ _ _ (by decide) (by decide)

/--
Claim C4 (confirmed): `STORNPriorModel.standard_input` returns exactly
`concat([zeros(n,T,L), ones(n,T,L)], axis=-1)` for mode `"gauss"`, exactly
`concat([0.5*ones(n,T,L), zeros(n,T,L)], axis=-1)` for mode `"bernoulli"`,
and raises `ValueError("Unknown mode!")` for every other mode string.
-/
theorem standard_input_spec (n T L : ℕ) :
    standard_input n T L "gauss" =
      Except.ok (np_concat_last (np_zeros n T L) (np_ones n T L)) ∧
    standard_input n T L "bernoulli" =
      Except.ok (np_concat_last (np_smul (1/2) (np_ones n T L)) (np_zeros n T L)) ∧
    ∀ mode, mode ≠ "gauss" → mode ≠ "bernoulli" →
      standard_input n T L mode =
        Except.error (ErrMsg.valueError "Unknown mode!") := by
  refine ⟨rfl, ?_, ?_⟩
  · have h : np_smul (1/2) (np_ones n T L) = np_full n T L (1/2) := by
      simp [np_smul, np_ones, np_full, List.map_replicate]
    rw [h]
    rfl
  · intro mode h1 h2
    simp only [standard_input, if_neg h1, if_neg h2]

/-- Claim C4 witness: the error branch of `standard_input_spec` evaluated at
a concrete unknown mode. -/
theorem standard_input_spec_witness :
    standard_input 2 3 1 "poisson" =
      Except.error (ErrMsg.valueError "Unknown mode!") :=
  (standard_input_spec 2 3 1).2.2 "poisson" (by decide) (by decide)

/--
Claim C5 counterexample: for `b = 1`, `n = 1` (input already a multiple of
the batch size) the padded length is `2`, but the smallest multiple of `1`
that is `≥ 1` is `1`: `add_samples_until_divisible` always appends at least
one zero sample, so its padded length is NOT the smallest multiple of `b`
that is `≥ n` whenever `b` already divides `n`.
-/
theorem add_samples_until_divisible_overpads :
    (add_samples_until_divisible ([[[5]]] : Array3)
        (zero_sample_of [[[5]]]) 1).length = 2 ∧
      least_multiple_ge 1 1 = 1 := by
  constructor
  · rfl
  · rfl

/--
Claim C5 (amended): for every batch size `b ≥ 1` and input `x`,
`add_samples_until_divisible(x, b)` returns a list of length
`b * (n / b + 1)` — the smallest multiple of `b` that is STRICTLY GREATER
than `n` (not `≥ n`: when `b` divides `n` a full extra batch of `b` zero
samples is appended) — whose first `n` entries equal `x` and whose appended
entries are all the zero sample.
-/
theorem add_samples_until_divisible_spec (x : List α) (z : α) (b : ℕ)
    (hb : 1 ≤ b) :
    (add_samples_until_divisible x z b).length = b * (x.length / b + 1) ∧
    (add_samples_until_divisible x z b).length % b = 0 ∧
    x.length < (add_samples_until_divisible x z b).length ∧
    (∀ k, k % b = 0 → x.length < k →
      (add_samples_until_divisible x z b).length ≤ k) ∧
    (add_samples_until_divisible x z b).take x.length = x ∧
    (add_samples_until_divisible x z b).drop x.length =
      List.replicate ((add_samples_until_divisible x z b).length - x.length) z := by
  have key : x.length < b * (x.length / b + 1) := by
    calc x.length = b * (x.length / b) + x.length % b :=
          (Nat.div_add_mod _ _).symm
      _ < b * (x.length / b) + b := by
          have : x.length % b < b := Nat.mod_lt _ hb
          omega
      _ = b * (x.length / b + 1) := by ring
  have hlen := add_samples_until_divisible_length x z b hb
  refine ⟨hlen, ?_, ?_, ?_, ?_, ?_⟩
  · rw [hlen]; exact Nat.mul_mod_right _ _
  · rw [hlen]; exact key
  · intro k hk hnk
    rw [hlen]
    obtain ⟨t, rfl⟩ := Nat.dvd_of_mod_eq_zero hk
    have ht : x.length / b < t := by
      rw [Nat.div_lt_iff_lt_mul hb]
      rw [mul_comm]
      exact hnk
    exact Nat.mul_le_mul_left b ht
  · simp only [add_samples_until_divisible]
    exact List.take_left x _
  · rw [hlen]
    simp only [add_samples_until_divisible]
    exact List.drop_left x _

/-- Claim C5 witness: the amended statement evaluated at `n = 5`, `b = 32`. -/
theorem add_samples_until_divisible_spec_witness :
    (add_samples_until_divisible [1, 2, 3, 4, 5] (0 : ℕ) 32).length =
        32 * (5 / 32 + 1) ∧
      (add_samples_until_divisible [1, 2, 3, 4, 5] (0 : ℕ) 32).take 5 =
        [1, 2, 3, 4, 5] :=
  ⟨(add_samples_until_divisible_spec [1, 2, 3, 4, 5] 0 32 (by decide)).1,
   (add_samples_until_divisible_spec [1, 2, 3, 4, 5] 0 32 (by decide)).2.2.2.2.1⟩

/-- The model instance of the claim C9 failing input: a fresh non-trending
model (`data_dim = 1`, `latent_dim = 1`, `rec = "gauss"`) on which no
predict graph has been built yet (`predict_model is None`). -/
def m_lazy : OpsModel :=
  { data_dim := 1, latent_dim := 1, rec_mode := "gauss",
    with_trending_prior := false, predict_model := none }

/-- The claim C9 failing input: one input array of 5 sequences, each 1
timestep of dimension 1 — matching `m_lazy.data_dim`. -/
def inputs_lazy : List Array3 := [[[[0]], [[1]], [[2]], [[3]], [[4]]]]

/--
Claim C9 (code bug): when `predict_one_step` is called while
`predict_model is None`, the code builds the predict graph and then calls
`self.load_predict_weights()` — but `load_predict_weights(self,
weights_file)` (STORN.py line 186) requires the `weights_file` argument, so
the call raises `TypeError: load_predict_weights() missing 1 required
positional argument: weights_file` instead of completing with a
prediction.  The lazy-build contract of the spec is the evident intent; the
argument-less call is a slip.
-/
theorem predict_one_step_lazy_build_raises_type_error :
    predict_one_step m_lazy inputs_lazy =
      Except.error
        (ErrMsg.typeErrorMissingArg "load_predict_weights" "weights_file") := by
  rfl

/--
Claim C7 (confirmed): in `evaluate_offline`, every row of the zero-padded
ground truth (original width `data_dim`, padding width
`4 * latent_dim + data_dim`) has width `2 * data_dim + 4 * latent_dim`,
which equals the width of the combined output tensor
`[gen_mu (D), gen_sigma (D), posterior stats (2L), prior stats (2L)]`
built by the train graph and consumed by the Variational Loss — for both
the standard and the trending prior.
-/
theorem evaluate_offline_padding_matches_output_width (target : Array3)
    (L D : ℕ) (tr : Bool) (h : ∀ seq ∈ target, ∀ row ∈ seq, row.length = D) :
    (∀ pseq ∈ evaluate_offline_padded_target target L D, ∀ prow ∈ pseq,
        prow.length = combined_output_width D L tr) ∧
      combined_output_width D L tr = 2 * D + 4 * L := by
  have hw : combined_output_width D L tr = 2 * D + 4 * L := by
    cases tr <;>
      simp [combined_output_width, recogn_stats_width, prior_stats_width] <;>
      ring
  refine ⟨?_, hw⟩
  intro pseq hp prow hr
  simp only [evaluate_offline_padded_target, np_concat_last, np_zeros] at hp
  rw [List.mem_iff_getElem] at hp
  obtain ⟨i, hi, hp⟩ := hp
  have hi1 : i < target.length := by
    rw [List.length_zipWith] at hi
    omega
  rw [List.getElem_zipWith] at hp
  rw [List.getElem_replicate] at hp
  subst hp
  rw [List.mem_iff_getElem] at hr
  obtain ⟨j, hj, hq⟩ := hr
  have hj1 : j < target[i].length := by
    rw [List.length_zipWith] at hj
    omega
  rw [List.getElem_zipWith] at hq
  rw [List.getElem_replicate] at hq
  subst hq
  have hD : (target[i][j]).length = D :=
    h target[i] (List.getElem_mem hi1) target[i][j] (List.getElem_mem hj1)
  rw [List.length_append, List.length_replicate, hD, hw]
  omega

/-- Claim C7 witness: a 1-sequence, 1-timestep target of width `D = 2` with
`L = 1`: the padded row has the combined-output width `2*2 + 4*1 = 8`. -/
theorem evaluate_offline_padding_matches_output_width_witness :
    ([1, 2, 0, 0, 0, 0, 0, 0] : List ℚ).length =
        combined_output_width 2 1 false ∧
      combined_output_width 2 1 false = 2 * 2 + 4 * 1 :=
  ⟨(evaluate_offline_padding_matches_output_width [[[1, 2]]] 1 2 false
        (by decide)).1
      [[1, 2, 0, 0, 0, 0, 0, 0]] (by decide) [1, 2, 0, 0, 0, 0, 0, 0]
      (by decide),
   (evaluate_offline_padding_matches_output_width [[[1, 2]]] 1 2 false
        (by decide)).2⟩

/-- The claim C8 counterexample model: configured `data_dim = 7`, fed data
of dimensionality 3. -/
def m_mismatch : OpsModel :=
  { data_dim := 7, latent_dim := 1, rec_mode := "gauss",
    with_trending_prior := false, predict_model := none }

/--
Claim C8 counterexample: `fit` and `predict_one_step` guard the data
dimensionality with a bare `assert self.data_dim == data_dim` — an
`AssertionError` with NO message at all, so the raised error does not name
the expected or the actual dimension, contrary to the claim (only
the assert of `evaluate_offline` carries such a message).
-/
theorem fit_and_predict_shape_error_has_no_message :
    fit m_mismatch [] [[[1, 2, 3]]] (1/10) =
        Except.error ErrMsg.assertionNoMsg ∧
      predict_one_step m_mismatch [[[[1, 2, 3]]]] =
        Except.error ErrMsg.assertionNoMsg := by
  constructor
  · rfl
  · rfl

/--
Claim C8 (amended): each of `fit`, `predict_one_step` and
`evaluate_offline` checks the last-axis dimensionality of the supplied data
against the configured `data_dim` at the start of the operation and fails
fast on mismatch — but only `evaluate_offline` raises with a message naming
both the expected and the actual dimension; `fit` and `predict_one_step`
raise a bare `AssertionError` with no message.
-/
theorem shape_mismatch_checked_at_start (m : OpsModel)
    (train_predict : List Array3 → Array3) (loss_fn : Array3 → Array3 → ℚ)
    (inputs : List Array3) (target : Array3) (vs : ℚ)
    (hT : m.data_dim ≠ np_shape2 target)
    (hI : m.data_dim ≠ np_shape2 (inputs.headD [])) :
    fit m inputs target vs = Except.error ErrMsg.assertionNoMsg ∧
    predict_one_step m inputs = Except.error ErrMsg.assertionNoMsg ∧
    evaluate_offline m train_predict loss_fn inputs target =
      Except.error (ErrMsg.dimMismatch m.data_dim (np_shape2 target)) := by
  refine ⟨?_, ?_, ?_⟩
  · simp only [fit, if_neg hT]
  · simp only [predict_one_step, if_neg hI]
  · simp only [evaluate_offline, if_neg (Ne.symm hT)]

/-- Claim C8 witness: the amended statement at a concrete mismatched call
(`data_dim` 7 configured, 3 supplied). -/
theorem shape_mismatch_checked_at_start_witness :
    evaluate_offline m_mismatch (fun _ => []) (fun _ _ => 0)
        [[[[1, 2, 3]]]] [[[1, 2, 3]]] =
      Except.error (ErrMsg.dimMismatch 7 3) :=
  (shape_mismatch_checked_at_start m_mismatch (fun _ => []) (fun _ _ => 0)
      [[[[1, 2, 3]]]] [[[1, 2, 3]]] (1/10) (by decide) (by decide)).2.2

/-- Either form `list_in` can take after `with_prior_input`: the inputs as
passed (trending prior) or with the constant-prior array appended. -/
theorem with_prior_input_shape (m : OpsModel) (n T : ℕ) (inputs list_in : List Array3)
    (heq : with_prior_input m n T inputs = Except.ok list_in) :
    list_in = inputs ∨ ∃ s, list_in = inputs ++ [s] := by
  simp only [with_prior_input] at heq
  split at heq
  · left
    injection heq with h
    exact h.symm
  · split at heq
    · exact Except.noConfusion heq
    · right
      injection heq with h
      exact ⟨_, h.symm⟩

/--
Claim C6 (confirmed): whenever `fit` reaches the training stage, the
train/validation partition is order-preserving and unshuffled — with
`k = int((1 - validation_split) * n_sequences)` (exact arithmetic; `int`
truncates, which equals `floor` for the nonnegative value arising from
`validation_split ∈ [0,1]`), the training target is exactly
`target[:k]`, the validation target exactly `target[k:]`, their
concatenation is the original target, and every caller-supplied input is
split the same way at the same index.
-/
theorem fit_validation_split (m : OpsModel) (inputs : List Array3)
    (target : Array3) (vs : ℚ) (res : FitSplit) (_h0 : 0 ≤ vs) (h1 : vs ≤ 1)
    (hok : fit m inputs target vs = Except.ok res) :
    res.train_target =
        target.take (Int.toNat ⌊(1 - vs) * (np_shape0 target : ℚ)⌋) ∧
    res.valid_target =
        target.drop (Int.toNat ⌊(1 - vs) * (np_shape0 target : ℚ)⌋) ∧
    res.train_target ++ res.valid_target = target ∧
    ∀ i, i < inputs.length →
      res.train_input[i]? =
          (inputs[i]?).map
            (fun X => X.take (Int.toNat ⌊(1 - vs) * (np_shape0 target : ℚ)⌋)) ∧
        res.valid_input[i]? =
          (inputs[i]?).map
            (fun X => X.drop (Int.toNat ⌊(1 - vs) * (np_shape0 target : ℚ)⌋)) := by
  have hq : (0 : ℚ) ≤ (1 - vs) * (np_shape0 target : ℚ) :=
    mul_nonneg (by linarith) (Nat.cast_nonneg _)
  have hfl : (0 : ℤ) ≤ ⌊(1 - vs) * (np_shape0 target : ℚ)⌋ :=
    Int.floor_nonneg.mpr hq
  have hsi : pyInt ((1 - vs) * (np_shape0 target : ℚ)) =
      ⌊(1 - vs) * (np_shape0 target : ℚ)⌋ := by
    rw [pyInt, if_pos hq, Rat.floor_def]
    exact Rat.floor_def' _
  have htake : ∀ l : Array3, pyTake (pyInt ((1 - vs) * (np_shape0 target : ℚ))) l =
      l.take (Int.toNat ⌊(1 - vs) * (np_shape0 target : ℚ)⌋) := by
    intro l
    rw [hsi]
    exact if_pos hfl
  have hdrop : ∀ l : Array3, pyDrop (pyInt ((1 - vs) * (np_shape0 target : ℚ))) l =
      l.drop (Int.toNat ⌊(1 - vs) * (np_shape0 target : ℚ)⌋) := by
    intro l
    rw [hsi]
    exact if_pos hfl
  simp only [fit] at hok
  split at hok
  · cases heq : with_prior_input m (np_shape0 target) (np_shape1 target) inputs with
    | error e =>
        rw [heq] at hok
        exact Except.noConfusion hok
    | ok list_in =>
        rw [heq] at hok
        simp only [Except.ok.injEq] at hok
        subst hok
        have hpre : ∀ i, i < inputs.length → list_in[i]? = inputs[i]? := by
          rcases with_prior_input_shape m _ _ inputs list_in heq with hli | ⟨s, hli⟩
          · intro i _
            rw [hli]
          · intro i hi
            rw [hli]
            exact List.getElem?_append_left hi
        refine ⟨htake target, hdrop target, ?_, ?_⟩
        · rw [htake target, hdrop target]
          exact List.take_append_drop _ target
        · intro i hi
          constructor
          · rw [List.getElem?_map, hpre i hi]
            cases inputs[i]? with
            | none => rfl
            | some X => simp [htake X]
          · rw [List.getElem?_map, hpre i hi]
            cases inputs[i]? with
            | none => rfl
            | some X => simp [hdrop X]
  · exact Except.noConfusion hok

/-- The model and data of the claim C6 witness. -/
def m_fit : OpsModel :=
  { data_dim := 1, latent_dim := 1, rec_mode := "gauss",
    with_trending_prior := false, predict_model := none }

/-- The partition `fit` produces on 3 sequences with `validation_split = 1/3`:
the first 2 sequences train, the last one validates, in order. -/
def fit_res : FitSplit :=
  { train_input := [[[[1]], [[2]]], [[[0, 1]], [[0, 1]]]]
    valid_input := [[[[3]]], [[[0, 1]]]]
    train_target := [[[1]], [[2]]]
    valid_target := [[[3]]] }

/-- Claim C6 witness: the split statement evaluated on the concrete `fit`
call of `m_fit` (3 sequences, `validation_split = 1/3`, split index 2). -/
theorem fit_validation_split_witness :
    fit_res.train_target =
        ([[[1]], [[2]], [[3]]] : Array3).take
          (Int.toNat ⌊(1 - (1/3 : ℚ)) * (np_shape0 ([[[1]], [[2]], [[3]]] : Array3) : ℚ)⌋) ∧
      fit_res.train_target ++ fit_res.valid_target = [[[1]], [[2]], [[3]]] := by
  have hpy : pyInt ((1 - (1/3 : ℚ)) *
      (np_shape0 ([[[1]], [[2]], [[3]]] : Array3) : ℚ)) = 2 := by
    have harith : (1 - (1/3 : ℚ)) *
        (np_shape0 ([[[1]], [[2]], [[3]]] : Array3) : ℚ) = 2 := by
      norm_num [np_shape0]
    rw [harith]
    rfl
  have hok : fit m_fit [[[[1]], [[2]], [[3]]]] [[[1]], [[2]], [[3]]] (1/3) =
      Except.ok fit_res := by
    simp only [fit, hpy]
    rfl
  have h := fit_validation_split m_fit [[[[1]], [[2]], [[3]]]]
    [[[1]], [[2]], [[3]]] (1/3) fit_res (by norm_num) (by norm_num) hok
  exact ⟨h.1, h.2.2.1⟩

/--
Claim C3 (confirmed): whenever `predict_one_step` returns, the returned
array has exactly `n_sequences = inputs[0].shape[0]` rows — the internal
zero-padding of the batch up to a multiple of the micro-batch size 32 is
sliced away by `[:n_sequences, :, :]` and never visible to the caller.
The predict graph is opaque; the only contract used is the keras rule "the
predicted batch has as many rows as the (padded) input batch".
-/
theorem predict_one_step_preserves_batch_size (m : OpsModel)
    (predict : List Array3 → Array3) (inputs : List Array3) (r : Array3)
    (hm : m.predict_model = some predict)
    (hkeras : ∀ xs, (predict xs).length = (xs.headD []).length)
    (hok : predict_one_step m inputs = Except.ok r) :
    r.length = np_shape0 (inputs.headD []) := by
  simp only [predict_one_step] at hok
  split at hok
  · cases heq : with_prior_input m (np_shape0 (inputs.headD []))
        (np_shape1 (inputs.headD [])) inputs with
    | error e =>
        rw [heq] at hok
        exact Except.noConfusion hok
    | ok list_in =>
        rw [heq] at hok
        rw [hm] at hok
        simp only [Except.ok.injEq] at hok
        subst hok
        rw [List.length_take, hkeras]
        rcases with_prior_input_shape m _ _ inputs list_in heq with hli | ⟨s, hli⟩ <;>
          rw [hli]
        · cases inputs with
          | nil => simp [np_shape0]
          | cons x0 rest =>
              have hge : x0.length ≤
                  (add_samples_until_divisible x0 (zero_sample_of x0) 32).length := by
                simp only [add_samples_until_divisible, List.length_append]
                exact Nat.le_add_right _ _
              simp only [List.map_cons, List.headD_cons, np_shape0]
              exact Nat.min_eq_left hge
        · cases inputs with
          | nil => simp [np_shape0]
          | cons x0 rest =>
              have hge : x0.length ≤
                  (add_samples_until_divisible x0 (zero_sample_of x0) 32).length := by
                simp only [add_samples_until_divisible, List.length_append]
                exact Nat.le_add_right _ _
              simp only [List.cons_append, List.map_cons, List.headD_cons, np_shape0]
              exact Nat.min_eq_left hge
  · exact Except.noConfusion hok

/-- The model of the claim C3 witness: a built predict graph whose predict
function echoes its first (padded) input array, satisfying the keras
batch-size contract definitionally. -/
def m_predict : OpsModel :=
  { data_dim := 1, latent_dim := 1, rec_mode := "gauss",
    with_trending_prior := false, predict_model := some (fun xs => xs.headD []) }

/-- The claim C3 witness input: one array of `n = 5` sequences — not a
multiple of the micro-batch size 32. -/
def x_predict : Array3 := [[[0]], [[1]], [[2]], [[3]], [[4]]]

/-- Claim C3 witness: the row-count statement evaluated on the concrete
5-sequence call of `m_predict` (the call itself returns `Except.ok x_predict`,
which has 5 rows). -/
theorem predict_one_step_preserves_batch_size_witness :
    x_predict.length = np_shape0 (([x_predict] : List Array3).headD []) ∧
      x_predict.length = 5 :=
  ⟨predict_one_step_preserves_batch_size m_predict (fun xs => xs.headD [])
      [x_predict] x_predict rfl (fun _ => rfl) (by decide),
   by decide⟩

/-! ## set_params lemmas -/

/-- A `set_params` loop iteration leaves every other attribute unchanged. -/
theorem get_attr_step_ne (m : Attrs) (kv : String × Value) (k : String)
    (h : k ≠ kv.1) : get_attr (set_params_step m kv) k = get_attr m k := by
  unfold set_params_step
  split
  · split
    · rfl
    · simp [set_attr, get_attr, h]
  · simp [set_attr, get_attr, h]

theorem set_params_cons (m : Attrs) (p : String × Value)
    (rest : List (String × Value)) :
    set_params m (p :: rest) = set_params (set_params_step m p) rest := rfl

/-- `set_params` leaves attributes whose key is absent from the mapping
unchanged. -/
theorem get_attr_set_params_of_not_mem (params : List (String × Value))
    (m : Attrs) (k : String) (h : k ∉ params.map Prod.fst) :
    get_attr (set_params m params) k = get_attr m k := by
  induction params generalizing m with
  | nil => rfl
  | cons p rest ih =>
      simp only [List.map_cons, List.mem_cons, not_or] at h
      rw [set_params_cons, ih (set_params_step m p) h.2,
        get_attr_step_ne m p k h.1]

/-- `set_params` assigns every non-`"embedding"` key of the mapping. -/
theorem get_attr_set_params_assigned (params : List (String × Value))
    (m : Attrs) (k : String) (v : Value)
    (hnd : (params.map Prod.fst).Nodup) (hmem : (k, v) ∈ params)
    (hne : k ≠ "embedding") :
    get_attr (set_params m params) k = some v := by
  induction params generalizing m with
  | nil => cases hmem
  | cons p rest ih =>
      rw [set_params_cons]
      simp only [List.map_cons, List.nodup_cons] at hnd
      rcases List.mem_cons.mp hmem with heq | hmem2
      · have hk0 : k = p.1 := congrArg Prod.fst heq
        have hk1 : k ∉ rest.map Prod.fst := by
          rw [hk0]
          exact hnd.1
        rw [get_attr_set_params_of_not_mem rest _ k hk1]
        rw [← heq]
        simp [set_params_step, hne, set_attr, get_attr]
      · exact ih (set_params_step m p) hnd.2 hmem2

/-- `set_params` on the `"embedding"` key: skipped when false-y, assigned
deserialized when truthy. -/
theorem get_attr_set_params_embedding (params : List (String × Value))
    (m : Attrs) (v : Value)
    (hnd : (params.map Prod.fst).Nodup) (hmem : ("embedding", v) ∈ params) :
    get_attr (set_params m params) "embedding" =
      if falsy v then get_attr m "embedding" else some (deserialize v) := by
  induction params generalizing m with
  | nil => cases hmem
  | cons p rest ih =>
      rw [set_params_cons]
      simp only [List.map_cons, List.nodup_cons] at hnd
      rcases List.mem_cons.mp hmem with heq | hmem2
      · have hk0 : "embedding" = p.1 := congrArg Prod.fst heq
        have hk1 : "embedding" ∉ rest.map Prod.fst := by
          rw [hk0]
          exact hnd.1
        rw [get_attr_set_params_of_not_mem rest _ _ hk1, ← heq]
        by_cases hf : falsy v
        · simp [set_params_step, hf]
        · simp [set_params_step, hf, set_attr, get_attr]
      · have hp1 : p.1 ≠ "embedding" := by
          intro hcontra
          apply hnd.1
          rw [hcontra]
          exact List.mem_map.mpr ⟨_, hmem2, rfl⟩
        rw [ih (set_params_step m p) hnd.2 hmem2]
        by_cases hf : falsy v
        · rw [if_pos hf, if_pos hf]
          exact get_attr_step_ne m p "embedding" (Ne.symm hp1)
        · rw [if_neg hf, if_neg hf]

/--
Claim C10 (confirmed): `set_params` assigns every key/value pair of the
mapping as an instance attribute — including keys that are not ModelConfig
fields — rejecting nothing and raising no error; the only key treated
specially is `"embedding"`, which is skipped (attribute unchanged) when its
value is false-y and otherwise deserialized into an object before
assignment.  (`set_params` is total by construction, so "no error raised"
holds for every mapping.)
-/
theorem set_params_assigns_every_key (m : Attrs)
    (params : List (String × Value)) (hnd : (params.map Prod.fst).Nodup) :
    (∀ k v, (k, v) ∈ params → k ≠ "embedding" →
        get_attr (set_params m params) k = some v) ∧
    ∀ v, ("embedding", v) ∈ params →
        get_attr (set_params m params) "embedding" =
          if falsy v then get_attr m "embedding" else some (deserialize v) :=
  ⟨fun k v hm hne => get_attr_set_params_assigned params m k v hnd hm hne,
   fun v hm => get_attr_set_params_embedding params m v hnd hm⟩

/-- Claim C10 witness: a mapping with an unknown key (`"bogus_key"`, not a
ModelConfig field) and a serialized embedding — both land as attributes,
the embedding deserialized. -/
theorem set_params_assigns_every_key_witness :
    get_attr (set_params fresh_default
        [("bogus_key", Value.vnat 5),
         ("embedding", Value.vdict "Dense" (Value.vstr "cfg"))]) "bogus_key" =
      some (Value.vnat 5) ∧
    get_attr (set_params fresh_default
        [("bogus_key", Value.vnat 5),
         ("embedding", Value.vdict "Dense" (Value.vstr "cfg"))]) "embedding" =
      some (Value.vobj "Dense" (Value.vstr "cfg")) := by
  have h := set_params_assigns_every_key fresh_default
    [("bogus_key", Value.vnat 5),
     ("embedding", Value.vdict "Dense" (Value.vstr "cfg"))] (by decide)
  refine ⟨h.1 "bogus_key" (Value.vnat 5) (by decide) (by decide), ?_⟩
  have h2 := h.2 (Value.vdict "Dense" (Value.vstr "cfg")) (by decide)
  simpa [falsy, deserialize] using h2

/--
Claim C1 (amended): the `get_params` / `set_params` round-trip on a fresh
instance reproduces every field that `get_params` serializes — data
dimensionality, latent dimensionality, dense width, recurrent width, depth,
dropout, activation, trending-prior flag, output folder, prefix, and the
embedding (correctly reconstructed from its class name and config when one
was set, and `None` when absent) — but NOT the output distribution family
(`rec`) and NOT the learning rate, which `get_params` omits from the
mapping: those two keep the defaults of the fresh instance (see the
counterexample `roundtrip_drops_rec_and_learning_rate`).
-/
theorem get_set_params_roundtrip (latent_dim data_dim n_hidden_dense
    n_hidden_recurrent rec_arg n_deep dropout activation with_trending_prior
    monitor output_folder pfx emb learning_rate : Value)
    (hemb : emb = Value.vnone ∨ ∃ c cfg, emb = Value.vobj c cfg) :
    ∃ ps, get_params (STORNModel_init latent_dim data_dim n_hidden_dense
        n_hidden_recurrent rec_arg n_deep dropout activation
        with_trending_prior monitor output_folder pfx emb learning_rate) =
        some ps ∧
      ∀ k ∈ (["data_dim", "latent_dim", "n_hidden_dense",
              "n_hidden_recurrent", "n_deep", "dropout", "activation",
              "with_trending_prior", "output_folder", "prefix",
              "embedding"] : List String),
        get_attr (set_params fresh_default ps) k =
          get_attr (STORNModel_init latent_dim data_dim n_hidden_dense
            n_hidden_recurrent rec_arg n_deep dropout activation
            with_trending_prior monitor output_folder pfx emb learning_rate) k := by
  rcases hemb with rfl | ⟨c, cfg, rfl⟩
  · refine ⟨_, rfl, ?_⟩
    intro k hk
    fin_cases hk <;> rfl
  · refine ⟨_, rfl, ?_⟩
    intro k hk
    fin_cases hk <;> rfl

/-- The claim C1 witness instance: constructed with an embedding object
(class `"Dense"`, config `"cfg"`) and non-default values. -/
def m_embedded : Attrs :=
  STORNModel_init (Value.vnat 3) (Value.vnat 4) (Value.vnat 10)
    (Value.vnat 20) (Value.vstr "gauss") (Value.vnat 2) (Value.vrat 0)
    (Value.vstr "relu") (Value.vbool true) (Value.vbool false)
    (Value.vstr "out") (Value.vstr "pre")
    (Value.vobj "Dense" (Value.vstr "cfg")) (Value.vrat (1/1000))

/-- Claim C1 witness: the round-trip statement evaluated on `m_embedded` at
the `"embedding"` key — the embedding object is reconstructed. -/
theorem get_set_params_roundtrip_witness :
    get_attr (set_params fresh_default ((get_params m_embedded).getD []))
        "embedding" =
      get_attr m_embedded "embedding" := by
  obtain ⟨ps, hps, h⟩ := get_set_params_roundtrip (Value.vnat 3) (Value.vnat 4)
    (Value.vnat 10) (Value.vnat 20) (Value.vstr "gauss") (Value.vnat 2)
    (Value.vrat 0) (Value.vstr "relu") (Value.vbool true) (Value.vbool false)
    (Value.vstr "out") (Value.vstr "pre")
    (Value.vobj "Dense" (Value.vstr "cfg")) (Value.vrat (1/1000))
    (Or.inr ⟨"Dense", Value.vstr "cfg", rfl⟩)
  simp only [m_embedded]
  rw [hps, Option.getD_some]
  exact h "embedding" (by simp)

/-- The claim C1 counterexample instance: `rec="bernoulli"`,
`learning_rate=1/100`, everything else default. -/
def m_bernoulli : Attrs :=
  STORNModel_init (Value.vnat 7) (Value.vnat 7) (Value.vnat 50)
    (Value.vnat 128) (Value.vstr "bernoulli") (Value.vnat 6) (Value.vrat 0)
    (Value.vstr "tanh") (Value.vbool false) (Value.vbool false)
    Value.vnone Value.vnone Value.vnone (Value.vrat (1/100))

/--
Claim C1 counterexample: `get_params` omits the `rec` (output distribution
family) and `learning_rate` attributes from the serialized mapping, so the
round-trip onto a fresh instance does NOT reproduce them: a model with
`rec="bernoulli"`, `learning_rate=1/100` round-trips to a configuration
with the fresh defaults `rec="gauss"`, `learning_rate=1/1000`.
-/
theorem roundtrip_drops_rec_and_learning_rate :
    get_attr m_bernoulli "rec" = some (Value.vstr "bernoulli") ∧
    get_attr (set_params fresh_default ((get_params m_bernoulli).getD []))
        "rec" = some (Value.vstr "gauss") ∧
    get_attr m_bernoulli "learning_rate" = some (Value.vrat (1/100)) ∧
    get_attr (set_params fresh_default ((get_params m_bernoulli).getD []))
        "learning_rate" = some (Value.vrat (1/1000)) :=
  ⟨rfl, rfl, rfl, rfl⟩

end STORN
